import Mathlib

/-!
Shallow embedding of `privacy_protector/guards.py`: the normalization layer
that turns heterogeneous PII-detection backend payloads into uniform match
records.  Backend payloads are modelled as JSON trees; the dynamic (duck-typed)
accesses the Python code performs on them are modelled in an error monad whose
errors are the Python exceptions (`TypeError`, `AttributeError`) that the
corresponding operations raise on ill-shaped data.  `json.loads` on an embedded
content string is modelled by its outcome (`LoadResult`): either the parsed
document or a `json.JSONDecodeError`.  JSON numbers are modelled as integers;
no claim involves fractional numeric fields.  Confidence scores are exact
rationals.
-/

/-- Canonical PII taxonomy. Modelled from the spec: the `PIIType` enumeration
of the `detectors` module (that module is not part of the provided source);
its members are exactly those the spec lists and `guards.py` references. -/
inductive PIIType where
  | name
  | email
  | phone
  | address
  | ssn
  | credit_card
  | date
  | ip_address
  | driver_license
  | passport
  | bank_account
  | custom
deriving DecidableEq, Repr

/-- JSON values, as produced by `json.loads` / the backend SDKs. -/
inductive Json where
  | null
  | bool (b : Bool)
  | num (n : Int)
  | str (s : String)
  | arr (items : List Json)
  | obj (fields : List (String × Json))

/-- Python exceptions that the parsers can raise on ill-shaped payloads and
that their `except (json.JSONDecodeError, KeyError)` clauses do not catch. -/
inductive PyErr where
  | typeError
  | attributeError
deriving DecidableEq, Repr

/-- First binding of a key in an association list (Python dicts have unique
keys, so first-match lookup is faithful). -/
def lookupField {β : Type} : List (String × β) → String → Option β
  | [], _ => none
  | (k, v) :: rest, key => if k = key then some v else lookupField rest key

/-- Python `d.get(key, default)` on a dict value. -/
def objGet (fields : List (String × Json)) (key : String) (default : Json) : Json :=
  (lookupField fields key).getD default

/-- Python `x.get(key, default)` on an arbitrary value: raises
`AttributeError` unless `x` is a dict. -/
def dynGet (x : Json) (key : String) (default : Json) : Except PyErr Json :=
  match x with
  | .obj fields => .ok (objGet fields key default)
  | _ => .error .attributeError

/-- Python `for item in x`: lists iterate their items, dicts their keys,
strings their one-character substrings; other values raise `TypeError`. -/
def pyIter (x : Json) : Except PyErr (List Json) :=
  match x with
  | .arr items => .ok items
  | .obj fields => .ok (fields.map (fun p => Json.str p.1))
  | .str s => .ok (s.data.map (fun c => Json.str (String.singleton c)))
  | _ => .error .typeError

/-- Python numeric coercion used by `x >= 0` and `x + n`: ints are ints,
bools count as 0/1, anything else raises `TypeError`. -/
def pyNumCoerce (x : Json) : Except PyErr Int :=
  match x with
  | .num n => .ok n
  | .bool b => .ok (if b then 1 else 0)
  | _ => .error .typeError

/-- Python `str.lower()`, modelled by per-character lowering of the decoded
character list (ASCII folding, which covers every string the source lowers
and compares). -/
def pyLower (s : String) : String := ⟨s.data.map Char.toLower⟩

/-- Index search underlying Python `str.find`: first position `≥`
the accumulator at which `p` is a prefix of the remaining text. -/
def findFrom (p : List Char) : List Char → Nat → Option Nat
  | [], i => if p.isPrefixOf [] then some i else none
  | c :: rest, i => if p.isPrefixOf (c :: rest) then some i else findFrom p rest (i + 1)

/-- Python `text.find(value)`: index of the first occurrence, or `-1`. -/
def pyFind (text value : String) : Int :=
  match findFrom value.data text.data 0 with
  | some n => (n : Int)
  | none => -1

/-- `value` occurs in `text` at character index `i`. -/
def occursAt (text value : String) (i : Nat) : Bool :=
  value.data.isPrefixOf (text.data.drop i)

/-- The `PIIMatch` record of the `detectors` module, as `guards.py` constructs
it.  The Python dataclass performs no validation, so the dynamically-typed
`value`/`start`/`end` fields hold whatever JSON value the parser supplies. -/
structure PIIMatch where
  pii_type : PIIType
  value : Json
  start : Json
  «end» : Json
  confidence : ℚ

/-- `GuardResult`, parameterized by the backend's raw-response type. -/
structure GuardResult (Raw : Type) where
  «matches» : List PIIMatch
  raw_response : Option Raw := none
  model_used : Option String := none

/-- Outcome of `json.loads` on an embedded content string: the parsed
document, or a `json.JSONDecodeError` for a malformed string. -/
inductive LoadResult where
  | ok (doc : Json)
  | jsonError

/-- Payload reaching `LlamaGuard._parse_response`, represented by the outcome
of `json.loads(response.get("response", "[]"))`; a missing `response` key
corresponds to `.ok (Json.arr [])` (the default string `"[]"`). -/
structure LlamaPayload where
  content : LoadResult

/-- `LlamaGuard._map_type`'s static table. -/
def llamaTypeTable : List (String × PIIType) :=
  [("name", .name), ("email", .email), ("phone", .phone), ("address", .address),
   ("ssn", .ssn), ("social_security", .ssn), ("credit_card", .credit_card),
   ("date", .date), ("date_of_birth", .date), ("dob", .date),
   ("ip", .ip_address), ("ip_address", .ip_address)]

def llamaKeys : List String := llamaTypeTable.map Prod.fst

/-- `LlamaGuard._map_type`: case-insensitive lookup, defaulting to `custom`. -/
def LlamaGuard.mapType (type_str : String) : PIIType :=
  (lookupField llamaTypeTable (pyLower type_str)).getD .custom

/-- Body of `LlamaGuard._parse_response`'s loop for a single item:
`item.get` requires a dict, `_map_type` requires a string `type` (its
`.lower()` call), `text.find` requires a string `value`; the span is always
recomputed by first-occurrence search and the item is emitted only when the
value was found. -/
def llamaItem (text : String) (item : Json) : Except PyErr (Option PIIMatch) :=
  match item with
  | .obj fields =>
    match objGet fields "type" (.str "") with
    | .str ty =>
      match objGet fields "value" (.str "") with
      | .str v =>
        let start := pyFind text v
        if 0 ≤ start then
          .ok (some ⟨LlamaGuard.mapType ty, .str v, .num start,
                     .num (start + (v.length : Int)), (0.85 : ℚ)⟩)
        else
          .ok none
      | _ => .error .typeError
    | _ => .error .attributeError
  | _ => .error .attributeError

/-- The `for item in pii_list` loop of `LlamaGuard._parse_response`. -/
def llamaItems (text : String) : List Json → Except PyErr (List PIIMatch)
  | [] => .ok []
  | item :: rest =>
    match llamaItem text item with
    | .error e => .error e
    | .ok m? =>
      match llamaItems text rest with
      | .error e => .error e
      | .ok ms => .ok (match m? with | some m => m :: ms | none => ms)

/-- `LlamaGuard._parse_response`.  The `except` clause catches only
`json.JSONDecodeError` (from `json.loads`) and `KeyError` (never raised here,
since all accesses use `.get`); `TypeError`/`AttributeError` raised while
iterating the document propagate to the caller. -/
def LlamaGuard.parseResponse (model text : String) (response : LlamaPayload) :
    Except PyErr (GuardResult LlamaPayload) :=
  match response.content with
  | .jsonError => .ok ⟨[], some response, some model⟩
  | .ok doc =>
    match pyIter doc with
    | .error e => .error e
    | .ok items =>
      match llamaItems text items with
      | .error e => .error e
      | .ok ms => .ok ⟨ms, some response, some model⟩

/-- `BedrockGuard._map_bedrock_type`'s static table. -/
def bedrockTypeTable : List (String × PIIType) :=
  [("NAME", .name), ("EMAIL", .email), ("PHONE", .phone), ("ADDRESS", .address),
   ("SSN", .ssn), ("US_SOCIAL_SECURITY_NUMBER", .ssn),
   ("CREDIT_DEBIT_NUMBER", .credit_card), ("IP_ADDRESS", .ip_address),
   ("DATE_TIME", .date), ("DRIVER_ID", .driver_license),
   ("PASSPORT_NUMBER", .passport), ("BANK_ACCOUNT_NUMBER", .bank_account)]

def bedrockKeys : List String := bedrockTypeTable.map Prod.fst

/-- `BedrockGuard._map_bedrock_type`: case-sensitive exact lookup, defaulting
to `custom`. -/
def BedrockGuard.mapBedrockType (bedrock_type : String) : PIIType :=
  (lookupField bedrockTypeTable bedrock_type).getD .custom

/-- Python `type_map.get(entity_type, CUSTOM)` where `entity_type` came from
the payload: hashable non-string keys (numbers, booleans, `None`) match no
string key and yield the default, unhashable keys (lists, dicts) raise
`TypeError`. -/
def bedrockEntityType (entity_type : Json) : Except PyErr PIIType :=
  match entity_type with
  | .str s => .ok (BedrockGuard.mapBedrockType s)
  | .num _ => .ok .custom
  | .bool _ => .ok .custom
  | .null => .ok .custom
  | _ => .error .typeError

/-- Body of `BedrockGuard._parse_response`'s innermost loop: every emitted
record carries the entity's `match` field verbatim, `start = end = 0`, and
confidence `0.95`. -/
def bedrockEntity (entity : Json) : Except PyErr PIIMatch :=
  match entity with
  | .obj fields =>
    match bedrockEntityType (objGet fields "type" (.str "UNKNOWN")) with
    | .error e => .error e
    | .ok t => .ok ⟨t, objGet fields "match" (.str ""), .num 0, .num 0, (0.95 : ℚ)⟩
  | _ => .error .attributeError

def bedrockEntities (text : String) : List Json → Except PyErr (List PIIMatch)
  | [] => .ok []
  | e :: rest =>
    match bedrockEntity e with
    | .error err => .error err
    | .ok m =>
      match bedrockEntities text rest with
      | .error err => .error err
      | .ok ms => .ok (m :: ms)

/-- One `assessment` of the Bedrock response: missing
`sensitiveInformationPolicy` defaults to `{}`, missing `piiEntities` to `[]`. -/
def bedrockAssessment (text : String) (assessment : Json) : Except PyErr (List PIIMatch) :=
  match assessment with
  | .obj fields =>
    match dynGet (objGet fields "sensitiveInformationPolicy" (.obj [])) "piiEntities" (.arr []) with
    | .error e => .error e
    | .ok pe =>
      match pyIter pe with
      | .error e => .error e
      | .ok es => bedrockEntities text es
  | _ => .error .attributeError

def bedrockAssessments (text : String) : List Json → Except PyErr (List PIIMatch)
  | [] => .ok []
  | a :: rest =>
    match bedrockAssessment text a with
    | .error e => .error e
    | .ok ms =>
      match bedrockAssessments text rest with
      | .error e => .error e
      | .ok ms2 => .ok (ms ++ ms2)

/-- One `output` of the Bedrock response: a missing `assessments` key
defaults to `[]`. -/
def bedrockOutput (text : String) (output : Json) : Except PyErr (List PIIMatch) :=
  match output with
  | .obj fields =>
    match pyIter (objGet fields "assessments" (.arr [])) with
    | .error e => .error e
    | .ok assessments => bedrockAssessments text assessments
  | _ => .error .attributeError

def bedrockOutputs (text : String) : List Json → Except PyErr (List PIIMatch)
  | [] => .ok []
  | o :: rest =>
    match bedrockOutput text o with
    | .error e => .error e
    | .ok ms =>
      match bedrockOutputs text rest with
      | .error e => .error e
      | .ok ms2 => .ok (ms ++ ms2)

/-- `BedrockGuard._parse_response`: a defensive walk of
`outputs → assessments → sensitiveInformationPolicy → piiEntities`, with no
span resolution (the `text` argument is never consulted). -/
def BedrockGuard.parseResponse (text : String) (response : Json) :
    Except PyErr (GuardResult Json) :=
  match response with
  | .obj fields =>
    match pyIter (objGet fields "outputs" (.arr [])) with
    | .error e => .error e
    | .ok outputs =>
      match bedrockOutputs text outputs with
      | .error e => .error e
      | .ok ms => .ok ⟨ms, some response, some "bedrock-guardrails"⟩
  | _ => .error .attributeError

/-- `OpenAIGuard._map_type`'s static table. -/
def openaiTypeTable : List (String × PIIType) :=
  [("name", .name), ("email", .email), ("phone", .phone), ("address", .address),
   ("ssn", .ssn), ("credit_card", .credit_card), ("date", .date),
   ("ip_address", .ip_address)]

def openaiKeys : List String := openaiTypeTable.map Prod.fst

/-- `OpenAIGuard._map_type`: case-insensitive lookup, defaulting to `custom`. -/
def OpenAIGuard.mapType (type_str : String) : PIIType :=
  (lookupField openaiTypeTable (pyLower type_str)).getD .custom

/-- Payload reaching `OpenAIGuard._parse_response`, represented by the
outcome of `json.loads(response.choices[0].message.content)`. -/
structure OpenAIPayload where
  content : LoadResult

/-- Body of `OpenAIGuard._parse_response`'s loop for a single item.  Python
evaluates `item.get`'s default argument eagerly, so `text.find(value)` runs
(requiring a string `value`) even when `start` is supplied, and the
`start + len(value) if start >= 0 else 0` default for `end` runs (requiring a
numeric `start`) even when `end` is supplied.  Supplied `start`/`end` values
are stored verbatim; the item is emitted only when the value is a non-empty
string and `start >= 0`. -/
def openaiItem (text : String) (item : Json) : Except PyErr (Option PIIMatch) :=
  match item with
  | .obj fields =>
    match objGet fields "type" (.str "") with
    | .str ty =>
      match objGet fields "value" (.str "") with
      | .str v =>
        let startJ := objGet fields "start" (.num (pyFind text v))
        match pyNumCoerce startJ with
        | .error e => .error e
        | .ok n =>
          let endJ := objGet fields "end" (.num (if 0 ≤ n then n + (v.length : Int) else 0))
          if v ≠ "" ∧ 0 ≤ n then
            .ok (some ⟨OpenAIGuard.mapType ty, .str v, startJ, endJ, (0.90 : ℚ)⟩)
          else
            .ok none
      | _ => .error .typeError
    | _ => .error .attributeError
  | _ => .error .attributeError

/-- The `for item in pii_list` loop of `OpenAIGuard._parse_response`. -/
def openaiItems (text : String) : List Json → Except PyErr (List PIIMatch)
  | [] => .ok []
  | item :: rest =>
    match openaiItem text item with
    | .error e => .error e
    | .ok m? =>
      match openaiItems text rest with
      | .error e => .error e
      | .ok ms => .ok (match m? with | some m => m :: ms | none => ms)

/-- `OpenAIGuard._parse_response`: the item array is
`content.get("pii", content.get("results", content))`; `content.get` on a
non-dict document raises `AttributeError` (uncaught), and a selected value
that is not a list yields zero matches via the `isinstance(pii_list, list)`
gate. -/
def OpenAIGuard.parseResponse (model text : String) (payload : OpenAIPayload) :
    Except PyErr (GuardResult OpenAIPayload) :=
  match payload.content with
  | .jsonError => .ok ⟨[], some payload, some model⟩
  | .ok doc =>
    match doc with
    | .obj fields =>
      match objGet fields "pii" (objGet fields "results" (.obj fields)) with
      | .arr items =>
        match openaiItems text items with
        | .error e => .error e
        | .ok ms => .ok ⟨ms, some payload, some model⟩
      | _ => .ok ⟨[], some payload, some model⟩
    | _ => .error .attributeError

/-- The backend family each registry entry constructs. -/
inductive GuardFamily where
  | llama
  | bedrock
  | presidio
  | openai
deriving DecidableEq, Repr

/-- The `providers` registry of `get_guard`, in source order; aliases map to
the same backend family. -/
def providerTable : List (String × GuardFamily) :=
  [("llama", .llama), ("llama-guard", .llama), ("bedrock", .bedrock),
   ("aws", .bedrock), ("presidio", .presidio), ("openai", .openai),
   ("gpt", .openai)]

def providersKeys : List String := providerTable.map Prod.fst

/-- Python `repr` of the key list, as interpolated into the `ValueError`
message by `f"... {list(providers.keys())}"`. -/
def pyReprKeys (keys : List String) : String :=
  let q := String.singleton (Char.ofNat 39)
  "[" ++ String.intercalate ", " (keys.map (fun k => q ++ k ++ q)) ++ "]"

/-- The `ValueError` message for an unknown provider. -/
def unknownProviderMessage (provider : String) : String :=
  "Unknown guard provider: " ++ provider ++ (". Supported: " ++ pyReprKeys providersKeys)

/-- `get_guard`: lower-cases the identifier, returns no backend for
`regex`/`none`/empty, raises `ValueError` (modelled as `.error msg`) for an
identifier outside the registry, and otherwise constructs the selected
backend family. -/
def get_guard (provider : String) : Except String (Option GuardFamily) :=
  let p := pyLower provider
  if p = "regex" ∨ p = "none" ∨ p = "" then .ok none
  else
    match lookupField providerTable p with
    | some fam => .ok (some fam)
    | none => .error (unknownProviderMessage p)

theorem findFrom_some_spec (p : List Char) :
    ∀ (t : List Char) (i k : Nat), findFrom p t i = some k →
      i ≤ k ∧ k - i ≤ t.length ∧ p.isPrefixOf (t.drop (k - i)) = true ∧
        ∀ m, m < k - i → p.isPrefixOf (t.drop m) = false := by
  intro t
  induction t with
  | nil =>
    intro i k h
    simp only [findFrom] at h
    by_cases hp : p.isPrefixOf [] = true
    · simp [hp] at h
      subst h
      refine ⟨Nat.le_refl _, by simp, by simpa using hp, ?_⟩
      intro m hm
      omega
    · simp [hp] at h
  | cons c rest ih =>
    intro i k h
    simp only [findFrom] at h
    by_cases hp : p.isPrefixOf (c :: rest) = true
    · simp [hp] at h
      subst h
      refine ⟨Nat.le_refl _, by simp, by simpa using hp, ?_⟩
      intro m hm
      omega
    · simp [hp] at h
      obtain ⟨h1, h2, h3, h4⟩ := ih (i + 1) k h
      refine ⟨by omega, by simp; omega, ?_, ?_⟩
      · have : k - i = (k - (i + 1)) + 1 := by omega
        rw [this]
        simpa using h3
      · intro m hm
        match m with
        | 0 => simpa using Bool.eq_false_iff.mpr hp
        | m' + 1 =>
          have : m' < k - (i + 1) := by omega
          simpa using h4 m' this

theorem findFrom_none_spec (p : List Char) :
    ∀ (t : List Char) (i : Nat), findFrom p t i = none →
      ∀ m, p.isPrefixOf (t.drop m) = false := by
  intro t
  induction t with
  | nil =>
    intro i h m
    simp only [findFrom] at h
    by_cases hp : p.isPrefixOf [] = true
    · simp [hp] at h
    · simpa using Bool.eq_false_iff.mpr hp
  | cons c rest ih =>
    intro i h m
    simp only [findFrom] at h
    by_cases hp : p.isPrefixOf (c :: rest) = true
    · simp [hp] at h
    · simp [hp] at h
      match m with
      | 0 => simpa using Bool.eq_false_iff.mpr hp
      | m' + 1 => simpa using ih (i + 1) h m'

theorem pyFind_eq_of_unique (text value : String) (i : Nat)
    (h1 : occursAt text value i = true)
    (h2 : ∀ j, j ≤ text.length → occursAt text value j = true → j = i) :
    pyFind text value = (i : Int) := by
  unfold pyFind
  cases hf : findFrom value.data text.data 0 with
  | none =>
    have := findFrom_none_spec value.data text.data 0 hf i
    unfold occursAt at h1
    rw [h1] at this
    cases this
  | some k =>
    obtain ⟨_, hlen, hocc, _⟩ := findFrom_some_spec value.data text.data 0 k hf
    simp only [Nat.sub_zero] at hlen hocc
    have hk : k = i := by
      apply h2
      · exact hlen
      · simpa [occursAt] using hocc
    simp [hk]

theorem pyFind_eq_neg_one (text value : String)
    (h : ∀ j, j ≤ text.length → occursAt text value j = false) :
    pyFind text value = -1 := by
  unfold pyFind
  cases hf : findFrom value.data text.data 0 with
  | none => rfl
  | some k =>
    obtain ⟨_, hlen, hocc, _⟩ := findFrom_some_spec value.data text.data 0 k hf
    simp only [Nat.sub_zero] at hlen hocc
    have := h k hlen
    unfold occursAt at this
    rw [hocc] at this
    cases this

theorem lookupField_eq_none_of_not_mem {β : Type} (l : List (String × β)) (key : String)
    (h : key ∉ l.map Prod.fst) : lookupField l key = none := by
  induction l with
  | nil => rfl
  | cons p rest ih =>
    simp only [List.map_cons, List.mem_cons] at h
    push_neg at h
    simp only [lookupField]
    rw [if_neg (fun hc => h.1 hc.symm)]
    exact ih h.2

theorem mem_of_lookupField_eq_some {β : Type} (l : List (String × β)) (key : String) (v : β)
    (h : lookupField l key = some v) : key ∈ l.map Prod.fst := by
  induction l with
  | nil => cases h
  | cons p rest ih =>
    simp only [lookupField] at h
    by_cases hk : p.1 = key
    · simp [hk]
    · rw [if_neg hk] at h
      simp [ih h]

theorem eq_of_mem_of_lower_pairwise {l : List String}
    (hp : l.Pairwise (fun a b => pyLower a ≠ pyLower b)) {a b : String}
    (ha : a ∈ l) (hb : b ∈ l) (h : pyLower a = pyLower b) : a = b := by
  induction l with
  | nil => cases ha
  | cons x xs ih =>
    rw [List.pairwise_cons] at hp
    rcases List.mem_cons.mp ha with ha1 | ha2
    · rcases List.mem_cons.mp hb with hb1 | hb2
      · rw [ha1, hb1]
      · exact absurd h (ha1 ▸ hp.1 b hb2)
    · rcases List.mem_cons.mp hb with hb1 | hb2
      · exact absurd h.symm (hb1 ▸ hp.1 a ha2)
      · exact ih hp.2 ha2 hb2

theorem str_data_append (a b : String) : (a ++ b).data = a.data ++ b.data := rfl

theorem bedrockKeys_lower_pairwise :
    bedrockKeys.Pairwise (fun a b => pyLower a ≠ pyLower b) := by decide

/-- C5: the type-mapping functions are total — every backend-native type
string, including unrecognized, empty or missing ones (a missing `type` field
defaults to the empty string), yields exactly one canonical category, and
every string whose lookup key lies outside the backend's static table yields
the catch-all `custom` (the lookup key being the lower-cased string for the
free-text backends and the string itself for Bedrock). -/
theorem type_mapping_totality :
    (∀ s : String, pyLower s ∉ llamaKeys → LlamaGuard.mapType s = .custom)
    ∧ (∀ s : String, s ∉ bedrockKeys → BedrockGuard.mapBedrockType s = .custom)
    ∧ (∀ s : String, pyLower s ∉ openaiKeys → OpenAIGuard.mapType s = .custom)
    ∧ LlamaGuard.mapType "" = .custom
    ∧ BedrockGuard.mapBedrockType "" = .custom
    ∧ OpenAIGuard.mapType "" = .custom := by
  refine ⟨?_, ?_, ?_, rfl, rfl, rfl⟩
  · intro s h
    unfold LlamaGuard.mapType
    rw [lookupField_eq_none_of_not_mem _ _ h]
    rfl
  · intro s h
    unfold BedrockGuard.mapBedrockType
    rw [lookupField_eq_none_of_not_mem _ _ h]
    rfl
  · intro s h
    unfold OpenAIGuard.mapType
    rw [lookupField_eq_none_of_not_mem _ _ h]
    rfl

theorem type_mapping_totality_witness :
    (pyLower "made-up-type" ∉ llamaKeys ∧ LlamaGuard.mapType "made-up-type" = .custom)
    ∧ ("made-up-type" ∉ bedrockKeys ∧ BedrockGuard.mapBedrockType "made-up-type" = .custom)
    ∧ (pyLower "made-up-type" ∉ openaiKeys ∧ OpenAIGuard.mapType "made-up-type" = .custom) :=
  ⟨⟨by decide, type_mapping_totality.1 "made-up-type" (by decide)⟩,
   ⟨by decide, type_mapping_totality.2.1 "made-up-type" (by decide)⟩,
   ⟨by decide, type_mapping_totality.2.2.1 "made-up-type" (by decide)⟩⟩

/-- C7: the free-text backends (Llama, OpenAI) map case variants of a type
string to the same canonical category, while the Bedrock mapping is
case-sensitive: a string that differs only in case from a table key (without
being equal to it) maps to `custom`, not to that key's category. -/
theorem type_mapping_case_discipline :
    (∀ s t : String, pyLower s = pyLower t → LlamaGuard.mapType s = LlamaGuard.mapType t)
    ∧ (∀ s t : String, pyLower s = pyLower t → OpenAIGuard.mapType s = OpenAIGuard.mapType t)
    ∧ (∀ s k : String, k ∈ bedrockKeys → pyLower s = pyLower k → s ≠ k →
        BedrockGuard.mapBedrockType s = .custom) := by
  refine ⟨?_, ?_, ?_⟩
  · intro s t h
    unfold LlamaGuard.mapType
    rw [h]
  · intro s t h
    unfold OpenAIGuard.mapType
    rw [h]
  · intro s k hk h hne
    by_cases hs : s ∈ bedrockKeys
    · exact absurd (eq_of_mem_of_lower_pairwise bedrockKeys_lower_pairwise hs hk h) hne
    · unfold BedrockGuard.mapBedrockType
      rw [lookupField_eq_none_of_not_mem _ _ hs]
      rfl

theorem type_mapping_case_discipline_witness :
    (pyLower "EMAIL" = pyLower "email" ∧ LlamaGuard.mapType "EMAIL" = LlamaGuard.mapType "email")
    ∧ (pyLower "Ssn" = pyLower "ssn" ∧ OpenAIGuard.mapType "Ssn" = OpenAIGuard.mapType "ssn")
    ∧ ("Name" ∈ bedrockKeys → False) ∧ BedrockGuard.mapBedrockType "Name" = .custom :=
  ⟨⟨by decide, type_mapping_case_discipline.1 "EMAIL" "email" (by decide)⟩,
   ⟨by decide, type_mapping_case_discipline.2.1 "Ssn" "ssn" (by decide)⟩,
   by decide,
   type_mapping_case_discipline.2.2 "Name" "NAME" (by decide) (by decide) (by decide)⟩

set_option maxRecDepth 8192 in
/-- C6: `get_guard` returns no backend exactly when the lower-cased
identifier is `regex`, `none` or empty; the aliases `llama`/`llama-guard`,
`bedrock`/`aws` and `openai`/`gpt` construct the same backend family; and any
other identifier outside the registry yields a `ValueError` whose message
contains the (lower-cased) unrecognized identifier and every valid
identifier, constructing no backend. -/
theorem backend_selector_registry :
    (∀ s : String, get_guard s = .ok none ↔
      (pyLower s = "regex" ∨ pyLower s = "none" ∨ pyLower s = ""))
    ∧ get_guard "llama" = .ok (some .llama)
    ∧ get_guard "llama-guard" = .ok (some .llama)
    ∧ get_guard "bedrock" = .ok (some .bedrock)
    ∧ get_guard "aws" = .ok (some .bedrock)
    ∧ get_guard "openai" = .ok (some .openai)
    ∧ get_guard "gpt" = .ok (some .openai)
    ∧ (∀ s : String, ¬(pyLower s = "regex" ∨ pyLower s = "none" ∨ pyLower s = "") →
        pyLower s ∉ providersKeys →
        get_guard s = .error (unknownProviderMessage (pyLower s))
        ∧ ((pyLower s).data <:+: (unknownProviderMessage (pyLower s)).data)
        ∧ ∀ k ∈ providersKeys, k.data <:+: (unknownProviderMessage (pyLower s)).data) := by
  refine ⟨?_, rfl, rfl, rfl, rfl, rfl, rfl, ?_⟩
  · intro s
    constructor
    · intro h
      by_contra hc
      simp only [get_guard] at h
      rw [if_neg hc] at h
      cases hl : lookupField providerTable (pyLower s) with
      | some fam => rw [hl] at h; cases h
      | none => rw [hl] at h; cases h
    · intro h
      simp only [get_guard]
      rw [if_pos h]
  · intro s hspec hreg
    have hmsg : get_guard s = .error (unknownProviderMessage (pyLower s)) := by
      simp only [get_guard]
      rw [if_neg hspec, lookupField_eq_none_of_not_mem _ _ hreg]
    refine ⟨hmsg, ?_, ?_⟩
    · exact ⟨("Unknown guard provider: " : String).data,
            (". Supported: " ++ pyReprKeys providersKeys).data,
            by simp only [unknownProviderMessage, str_data_append, List.append_assoc]⟩
    · intro k hk
      have hsuf : k.data <:+: (". Supported: " ++ pyReprKeys providersKeys).data := by
        fin_cases hk <;> decide
      obtain ⟨u, v, huv⟩ := hsuf
      exact ⟨("Unknown guard provider: " : String).data ++ (pyLower s).data ++ u, v,
        by simp only [unknownProviderMessage, str_data_append, List.append_assoc, huv]⟩

set_option maxRecDepth 8192 in
theorem backend_selector_registry_witness :
    get_guard "regex" = .ok none
    ∧ (¬(pyLower "nonexistent-provider" = "regex" ∨ pyLower "nonexistent-provider" = "none"
          ∨ pyLower "nonexistent-provider" = "")
        ∧ pyLower "nonexistent-provider" ∉ providersKeys)
    ∧ get_guard "nonexistent-provider"
        = .error (unknownProviderMessage (pyLower "nonexistent-provider"))
    ∧ ∀ k ∈ providersKeys,
        k.data <:+: (unknownProviderMessage (pyLower "nonexistent-provider")).data :=
  ⟨(backend_selector_registry.1 "regex").mpr (by decide),
   ⟨by decide, by decide⟩,
   (backend_selector_registry.2.2.2.2.2.2.2 "nonexistent-provider" (by decide) (by decide)).1,
   (backend_selector_registry.2.2.2.2.2.2.2 "nonexistent-provider" (by decide) (by decide)).2.2⟩

/-- C1: when a value `V` occurs exactly once in the text `T` (at index `i`),
the Llama parser — which receives only the value, no offsets — resolves the
span of an item carrying `V` to `start = i` and `end = i + len(V)`. -/
theorem llama_span_resolution_unique_occurrence (model T V ty : String) (i : Nat)
    (h1 : occursAt T V i = true)
    (h2 : ∀ j, j ≤ T.length → occursAt T V j = true → j = i) :
    LlamaGuard.parseResponse model T ⟨.ok (.arr [.obj [("type", .str ty), ("value", .str V)]])⟩
      = .ok ⟨[⟨LlamaGuard.mapType ty, .str V, .num (i : Int),
              .num ((i : Int) + (V.length : Int)), (0.85 : ℚ)⟩],
             some ⟨.ok (.arr [.obj [("type", .str ty), ("value", .str V)]])⟩,
             some model⟩ := by
  have hf : pyFind T V = (i : Int) := pyFind_eq_of_unique T V i h1 h2
  simp [LlamaGuard.parseResponse, pyIter, llamaItems, llamaItem, objGet, lookupField, hf,
        Int.natCast_nonneg]

theorem llama_span_resolution_unique_occurrence_witness :
    (occursAt "xaxy" "ax" 1 = true
      ∧ ∀ j, j ≤ ("xaxy" : String).length → occursAt "xaxy" "ax" j = true → j = 1)
    ∧ LlamaGuard.parseResponse "m" "xaxy"
        ⟨.ok (.arr [.obj [("type", .str "name"), ("value", .str "ax")]])⟩
      = .ok ⟨[⟨LlamaGuard.mapType "name", .str "ax", .num ((1 : Nat) : Int),
              .num (((1 : Nat) : Int) + (("ax" : String).length : Int)), (0.85 : ℚ)⟩],
             some ⟨.ok (.arr [.obj [("type", .str "name"), ("value", .str "ax")]])⟩,
             some "m"⟩ :=
  ⟨⟨by decide, by decide⟩,
   llama_span_resolution_unique_occurrence "m" "xaxy" "ax" "name" 1 (by decide) (by decide)⟩

/-- C2: a non-empty value that does not occur in the text produces no match
record — neither in the Llama parser nor in the OpenAI parser when the item
supplies no offsets; the item is dropped silently and no fabricated span is
emitted. -/
theorem span_nonfabrication (model T V ty : String) (hV : V ≠ "")
    (h : ∀ j, j ≤ T.length → occursAt T V j = false) :
    LlamaGuard.parseResponse model T ⟨.ok (.arr [.obj [("type", .str ty), ("value", .str V)]])⟩
      = .ok ⟨[], some ⟨.ok (.arr [.obj [("type", .str ty), ("value", .str V)]])⟩, some model⟩
    ∧ OpenAIGuard.parseResponse model T
        ⟨.ok (.obj [("pii", .arr [.obj [("type", .str ty), ("value", .str V)]])])⟩
      = .ok ⟨[], some ⟨.ok (.obj [("pii", .arr [.obj [("type", .str ty), ("value", .str V)]])])⟩,
             some model⟩ := by
  have hf : pyFind T V = -1 := pyFind_eq_neg_one T V h
  constructor
  · simp [LlamaGuard.parseResponse, pyIter, llamaItems, llamaItem, objGet, lookupField, hf]
  · simp [OpenAIGuard.parseResponse, openaiItems, openaiItem, objGet, lookupField, hf,
          pyNumCoerce, hV]

theorem span_nonfabrication_witness :
    ("zz" ≠ "" ∧ ∀ j, j ≤ ("ab" : String).length → occursAt "ab" "zz" j = false)
    ∧ LlamaGuard.parseResponse "m" "ab"
        ⟨.ok (.arr [.obj [("type", .str "email"), ("value", .str "zz")]])⟩
      = .ok ⟨[], some ⟨.ok (.arr [.obj [("type", .str "email"), ("value", .str "zz")]])⟩, some "m"⟩
    ∧ OpenAIGuard.parseResponse "m" "ab"
        ⟨.ok (.obj [("pii", .arr [.obj [("type", .str "email"), ("value", .str "zz")]])])⟩
      = .ok ⟨[], some ⟨.ok (.obj [("pii", .arr [.obj [("type", .str "email"), ("value", .str "zz")]])])⟩,
             some "m"⟩ :=
  ⟨⟨by decide, by decide⟩,
   (span_nonfabrication "m" "ab" "zz" "email" (by decide) (by decide)).1,
   (span_nonfabrication "m" "ab" "zz" "email" (by decide) (by decide)).2⟩

/-- C3 (code defect): the parsers are not total.  On a payload whose embedded
content is the JSON document `[1]` — a list with a non-object item — both the
Llama and the OpenAI parser raise `AttributeError` (`(1).get(...)` for Llama,
and for OpenAI already `content.get` when the document itself is a list),
which the `except (json.JSONDecodeError, KeyError)` clause does not catch. -/
theorem parser_raises_on_nonobject_item :
    LlamaGuard.parseResponse "llama-guard3" "" ⟨.ok (.arr [.num 1])⟩ = .error .attributeError
    ∧ OpenAIGuard.parseResponse "gpt-4o-mini" "" ⟨.ok (.arr [.num 1])⟩
        = .error .attributeError := ⟨rfl, rfl⟩

/-- C4 counterexample: a Llama payload with one well-formed item (value
`"ab"`, which occurs in the text) and one item missing its `value` field
yields two match records, not one: the missing value defaults to `""`,
`text.find("") = 0`, and the parser emits an empty-value record with span
`(0, 0)` instead of dropping the item. -/
theorem llama_missing_value_item_not_dropped :
    (LlamaGuard.parseResponse "m" "ab"
        ⟨.ok (.arr [.obj [("type", .str "email"), ("value", .str "ab")],
                    .obj [("type", .str "name")]])⟩).map (fun r => r.matches)
      = .ok [⟨.email, .str "ab", .num 0, .num 2, (0.85 : ℚ)⟩,
             ⟨.name, .str "", .num 0, .num 0, (0.85 : ℚ)⟩] := rfl

/-- C4 amended: with one well-formed item (value found in the text) and one
item missing its `value` field, the OpenAI parser returns exactly one match
record (its `if value` guard drops the empty-value item), while the Llama
parser additionally emits a record for the malformed item, with empty value
and span `(0, 0)` — two records in total. -/
theorem parser_resilience_amended (model T V ty1 ty2 : String)
    (hV : V ≠ "") (hfind : 0 ≤ pyFind T V) :
    (OpenAIGuard.parseResponse model T
        ⟨.ok (.obj [("pii", .arr [.obj [("type", .str ty1), ("value", .str V)],
                                  .obj [("type", .str ty2)]])])⟩).map (fun r => r.matches)
      = .ok [⟨OpenAIGuard.mapType ty1, .str V, .num (pyFind T V),
              .num (pyFind T V + (V.length : Int)), (0.90 : ℚ)⟩]
    ∧ (LlamaGuard.parseResponse model T
        ⟨.ok (.arr [.obj [("type", .str ty1), ("value", .str V)],
                    .obj [("type", .str ty2)]])⟩).map (fun r => r.matches)
      = .ok [⟨LlamaGuard.mapType ty1, .str V, .num (pyFind T V),
              .num (pyFind T V + (V.length : Int)), (0.85 : ℚ)⟩,
             ⟨LlamaGuard.mapType ty2, .str "", .num 0, .num 0, (0.85 : ℚ)⟩] := by
  constructor
  · simp [OpenAIGuard.parseResponse, openaiItems, openaiItem, objGet, lookupField,
          pyNumCoerce, hV, hfind, Except.map]
  · have h0 : pyFind T "" = 0 := by
      unfold pyFind
      cases hd : T.data with
      | nil => simp [findFrom, List.isPrefixOf]
      | cons c rest => simp [findFrom, List.isPrefixOf]
    simp [LlamaGuard.parseResponse, pyIter, llamaItems, llamaItem, objGet, lookupField,
          hfind, h0, Except.map]

theorem parser_resilience_amended_witness :
    ("ab" ≠ "" ∧ 0 ≤ pyFind "ab" "ab")
    ∧ (OpenAIGuard.parseResponse "m" "ab"
        ⟨.ok (.obj [("pii", .arr [.obj [("type", .str "email"), ("value", .str "ab")],
                                  .obj [("type", .str "name")]])])⟩).map (fun r => r.matches)
      = .ok [⟨OpenAIGuard.mapType "email", .str "ab", .num (pyFind "ab" "ab"),
              .num (pyFind "ab" "ab" + (("ab" : String).length : Int)), (0.90 : ℚ)⟩]
    ∧ (LlamaGuard.parseResponse "m" "ab"
        ⟨.ok (.arr [.obj [("type", .str "email"), ("value", .str "ab")],
                    .obj [("type", .str "name")]])⟩).map (fun r => r.matches)
      = .ok [⟨LlamaGuard.mapType "email", .str "ab", .num (pyFind "ab" "ab"),
              .num (pyFind "ab" "ab" + (("ab" : String).length : Int)), (0.85 : ℚ)⟩,
             ⟨LlamaGuard.mapType "name", .str "", .num 0, .num 0, (0.85 : ℚ)⟩] :=
  ⟨⟨by decide, by decide⟩,
   (parser_resilience_amended "m" "ab" "ab" "email" "name" (by decide) (by decide)).1,
   (parser_resilience_amended "m" "ab" "ab" "email" "name" (by decide) (by decide)).2⟩

theorem bedrockEntity_spec (e : Json) (m : PIIMatch) (h : bedrockEntity e = .ok m) :
    m.start = .num 0 ∧ m.«end» = .num 0 ∧ m.confidence = 0.95 := by
  cases e with
  | obj fields =>
    simp only [bedrockEntity] at h
    cases ht : bedrockEntityType (objGet fields "type" (.str "UNKNOWN")) with
    | error e0 => rw [ht] at h; cases h
    | ok t =>
      rw [ht] at h
      injection h with h
      subst h
      exact ⟨rfl, rfl, rfl⟩
  | null => exact Except.noConfusion h
  | bool b => exact Except.noConfusion h
  | num n => exact Except.noConfusion h
  | str s => exact Except.noConfusion h
  | arr items => exact Except.noConfusion h

theorem bedrockEntity_value_spec (fields : List (String × Json)) (m : PIIMatch)
    (h : bedrockEntity (.obj fields) = .ok m) :
    m.value = objGet fields "match" (.str "") := by
  simp only [bedrockEntity] at h
  cases ht : bedrockEntityType (objGet fields "type" (.str "UNKNOWN")) with
  | error e0 => rw [ht] at h; cases h
  | ok t =>
    rw [ht] at h
    injection h with h
    subst h
    rfl

theorem bedrockEntities_mem (text : String) (es : List Json) (ms : List PIIMatch)
    (h : bedrockEntities text es = .ok ms) :
    ∀ m ∈ ms, ∃ e, bedrockEntity e = .ok m := by
  induction es generalizing ms with
  | nil =>
    injection h with h
    subst h
    intro m hm
    cases hm
  | cons e rest ih =>
    simp only [bedrockEntities] at h
    cases he : bedrockEntity e with
    | error err => rw [he] at h; cases h
    | ok m0 =>
      rw [he] at h
      cases hr : bedrockEntities text rest with
      | error err => rw [hr] at h; cases h
      | ok ms0 =>
        rw [hr] at h
        injection h with h
        subst h
        intro m hm
        rcases List.mem_cons.mp hm with h1 | h2
        · exact ⟨e, by rw [h1]; exact he⟩
        · exact ih ms0 hr m h2

theorem bedrockAssessment_mem (text : String) (a : Json) (ms : List PIIMatch)
    (h : bedrockAssessment text a = .ok ms) :
    ∀ m ∈ ms, ∃ e, bedrockEntity e = .ok m := by
  cases a with
  | obj fields =>
    simp only [bedrockAssessment] at h
    split at h
    · cases h
    · split at h
      · cases h
      · exact bedrockEntities_mem text _ ms h
  | null => exact Except.noConfusion h
  | bool b => exact Except.noConfusion h
  | num n => exact Except.noConfusion h
  | str s => exact Except.noConfusion h
  | arr items => exact Except.noConfusion h

theorem bedrockAssessments_mem (text : String) (l : List Json) (ms : List PIIMatch)
    (h : bedrockAssessments text l = .ok ms) :
    ∀ m ∈ ms, ∃ e, bedrockEntity e = .ok m := by
  induction l generalizing ms with
  | nil =>
    injection h with h
    subst h
    intro m hm
    cases hm
  | cons a rest ih =>
    simp only [bedrockAssessments] at h
    cases ha : bedrockAssessment text a with
    | error e0 => rw [ha] at h; cases h
    | ok ms1 =>
      rw [ha] at h
      cases hr : bedrockAssessments text rest with
      | error e0 => rw [hr] at h; cases h
      | ok ms2 =>
        rw [hr] at h
        injection h with h
        subst h
        intro m hm
        rcases List.mem_append.mp hm with h1 | h2
        · exact bedrockAssessment_mem text a ms1 ha m h1
        · exact ih ms2 hr m h2

theorem bedrockOutput_mem (text : String) (o : Json) (ms : List PIIMatch)
    (h : bedrockOutput text o = .ok ms) :
    ∀ m ∈ ms, ∃ e, bedrockEntity e = .ok m := by
  cases o with
  | obj fields =>
    simp only [bedrockOutput] at h
    cases hp : pyIter (objGet fields "assessments" (.arr [])) with
    | error e0 => rw [hp] at h; cases h
    | ok l =>
      rw [hp] at h
      exact bedrockAssessments_mem text l ms h
  | null => exact Except.noConfusion h
  | bool b => exact Except.noConfusion h
  | num n => exact Except.noConfusion h
  | str s => exact Except.noConfusion h
  | arr items => exact Except.noConfusion h

theorem bedrockOutputs_mem (text : String) (l : List Json) (ms : List PIIMatch)
    (h : bedrockOutputs text l = .ok ms) :
    ∀ m ∈ ms, ∃ e, bedrockEntity e = .ok m := by
  induction l generalizing ms with
  | nil =>
    injection h with h
    subst h
    intro m hm
    cases hm
  | cons o rest ih =>
    simp only [bedrockOutputs] at h
    cases ho : bedrockOutput text o with
    | error e0 => rw [ho] at h; cases h
    | ok ms1 =>
      rw [ho] at h
      cases hr : bedrockOutputs text rest with
      | error e0 => rw [hr] at h; cases h
      | ok ms2 =>
        rw [hr] at h
        injection h with h
        subst h
        intro m hm
        rcases List.mem_append.mp hm with h1 | h2
        · exact bedrockOutput_mem text o ms1 ho m h1
        · exact ih ms2 hr m h2

/-- C8: the Bedrock parser walks the nested
`outputs → assessments → sensitiveInformationPolicy → piiEntities` shape
defensively — a missing key at any level contributes zero entities at that
level instead of an error — and every match record it emits has
`start = end = 0` (no span resolution is attempted; the text is never
consulted), with its value taken verbatim from the entity's `match` field. -/
theorem bedrock_defensive_walk :
    (∀ (text : String) (fields : List (String × Json)),
        lookupField fields "outputs" = none →
        BedrockGuard.parseResponse text (.obj fields)
          = .ok ⟨[], some (.obj fields), some "bedrock-guardrails"⟩)
    ∧ (∀ (text : String) (fields : List (String × Json)),
        lookupField fields "assessments" = none → bedrockOutput text (.obj fields) = .ok [])
    ∧ (∀ (text : String) (fields : List (String × Json)),
        lookupField fields "sensitiveInformationPolicy" = none →
        bedrockAssessment text (.obj fields) = .ok [])
    ∧ (∀ (text : String) (fields si : List (String × Json)),
        lookupField fields "sensitiveInformationPolicy" = some (.obj si) →
        lookupField si "piiEntities" = none →
        bedrockAssessment text (.obj fields) = .ok [])
    ∧ (∀ (text : String) (response : Json) (r : GuardResult Json),
        BedrockGuard.parseResponse text response = .ok r →
        ∀ m ∈ r.matches, m.start = .num 0 ∧ m.«end» = .num 0 ∧ m.confidence = 0.95)
    ∧ (∀ (fields : List (String × Json)) (m : PIIMatch),
        bedrockEntity (.obj fields) = .ok m →
        m.value = objGet fields "match" (.str "")) := by
  refine ⟨?_, ?_, ?_, ?_, ?_, ?_⟩
  · intro text fields h
    simp [BedrockGuard.parseResponse, objGet, h, pyIter, bedrockOutputs]
  · intro text fields h
    simp [bedrockOutput, objGet, h, pyIter, bedrockAssessments]
  · intro text fields h
    simp [bedrockAssessment, objGet, h, dynGet, lookupField, pyIter, bedrockEntities]
  · intro text fields si hsi hpe
    simp [bedrockAssessment, objGet, hsi, dynGet, hpe, pyIter, bedrockEntities]
  · intro text response r h m hm
    cases response with
    | obj fields =>
      simp only [BedrockGuard.parseResponse] at h
      split at h
      · cases h
      · rename_i outputs hout
        split at h
        · cases h
        · rename_i ms ho
          injection h with h
          subst h
          obtain ⟨e, he⟩ := bedrockOutputs_mem text outputs ms ho m hm
          exact bedrockEntity_spec e m he
    | null => exact Except.noConfusion h
    | bool b => exact Except.noConfusion h
    | num n => exact Except.noConfusion h
    | str s => exact Except.noConfusion h
    | arr items => exact Except.noConfusion h
  · intro fields m h
    exact bedrockEntity_value_spec fields m h

theorem bedrock_defensive_walk_witness :
    (lookupField [("other", Json.num 3)] "outputs" = none
      ∧ BedrockGuard.parseResponse "t" (.obj [("other", Json.num 3)])
          = .ok ⟨[], some (.obj [("other", Json.num 3)]), some "bedrock-guardrails"⟩)
    ∧ (bedrockEntity (.obj [("type", .str "EMAIL"), ("match", .str "x@y")])
        = .ok ⟨.email, .str "x@y", .num 0, .num 0, (0.95 : ℚ)⟩
      ∧ (⟨.email, .str "x@y", .num 0, .num 0, (0.95 : ℚ)⟩ : PIIMatch).value
          = objGet [("type", .str "EMAIL"), ("match", .str "x@y")] "match" (.str "")) :=
  ⟨⟨rfl, bedrock_defensive_walk.1 "t" [("other", Json.num 3)] rfl⟩,
   ⟨rfl, bedrock_defensive_walk.2.2.2.2.2 [("type", .str "EMAIL"), ("match", .str "x@y")]
      ⟨.email, .str "x@y", .num 0, .num 0, (0.95 : ℚ)⟩ rfl⟩⟩

/-- C9: the OpenAI parser takes the item array from the document's `pii` key,
else its `results` key, else the document itself (an object, which then fails
the `isinstance(..., list)` gate, yielding zero matches); per item, supplied
`start`/`end` values are carried into the emitted record verbatim, and when
both are absent the span falls back to first-occurrence search with
`end = start + len(value)`. -/
theorem openai_payload_selection_and_offsets :
    (∀ (model text : String) (fields : List (String × Json)) (items : List Json),
        lookupField fields "pii" = some (.arr items) →
        OpenAIGuard.parseResponse model text ⟨.ok (.obj fields)⟩
          = (openaiItems text items).map
              (fun ms => ⟨ms, some ⟨.ok (.obj fields)⟩, some model⟩))
    ∧ (∀ (model text : String) (fields : List (String × Json)) (items : List Json),
        lookupField fields "pii" = none →
        lookupField fields "results" = some (.arr items) →
        OpenAIGuard.parseResponse model text ⟨.ok (.obj fields)⟩
          = (openaiItems text items).map
              (fun ms => ⟨ms, some ⟨.ok (.obj fields)⟩, some model⟩))
    ∧ (∀ (model text : String) (fields : List (String × Json)),
        lookupField fields "pii" = none →
        lookupField fields "results" = none →
        OpenAIGuard.parseResponse model text ⟨.ok (.obj fields)⟩
          = .ok ⟨[], some ⟨.ok (.obj fields)⟩, some model⟩)
    ∧ (∀ (text : String) (fields : List (String × Json)) (sJ eJ : Json) (m : PIIMatch),
        lookupField fields "start" = some sJ →
        lookupField fields "end" = some eJ →
        openaiItem text (.obj fields) = .ok (some m) →
        m.start = sJ ∧ m.«end» = eJ)
    ∧ (∀ (text : String) (fields : List (String × Json)) (m : PIIMatch),
        lookupField fields "start" = none →
        lookupField fields "end" = none →
        openaiItem text (.obj fields) = .ok (some m) →
        ∃ v : String, m.value = .str v ∧ m.start = .num (pyFind text v)
          ∧ m.«end» = .num (pyFind text v + (v.length : Int))) := by
  refine ⟨?_, ?_, ?_, ?_, ?_⟩
  · intro model text fields items hpii
    simp only [OpenAIGuard.parseResponse, objGet, hpii, Option.getD]
    cases openaiItems text items <;> rfl
  · intro model text fields items hpii hres
    simp only [OpenAIGuard.parseResponse, objGet, hpii, hres, Option.getD]
    cases openaiItems text items <;> rfl
  · intro model text fields hpii hres
    simp only [OpenAIGuard.parseResponse, objGet, hpii, hres, Option.getD]
  · intro text fields sJ eJ m hs he h
    simp only [openaiItem, objGet, hs, he, Option.getD] at h
    split at h
    · split at h
      · split at h
        · cases h
        · split at h
          · injection h with h
            injection h with h
            subst h
            exact ⟨rfl, rfl⟩
          · injection h with h
            cases h
      · cases h
    · cases h
  · intro text fields m hs he h
    simp only [openaiItem, objGet, hs, he, Option.getD, pyNumCoerce] at h
    split at h
    · split at h
      · rename_i v hv
        split at h
        · rename_i hcond
          injection h with h
          injection h with h
          subst h
          refine ⟨v, rfl, rfl, ?_⟩
          simp [hcond.2]
        · injection h with h
          cases h
      · cases h
    · cases h

theorem openai_payload_selection_and_offsets_witness :
    (lookupField [("pii", Json.arr [])] "pii" = some (Json.arr [])
      ∧ OpenAIGuard.parseResponse "m" "ab" ⟨.ok (.obj [("pii", Json.arr [])])⟩
          = (openaiItems "ab" []).map
              (fun ms => ⟨ms, some ⟨.ok (.obj [("pii", Json.arr [])])⟩, some "m"⟩))
    ∧ (openaiItem "ab" (.obj [("type", .str "email"), ("value", .str "a"),
                              ("start", .num 1), ("end", .num 7)])
        = .ok (some ⟨OpenAIGuard.mapType "email", .str "a", .num 1, .num 7, (0.90 : ℚ)⟩)
      ∧ (⟨OpenAIGuard.mapType "email", .str "a", .num 1, .num 7, (0.90 : ℚ)⟩ : PIIMatch).start
          = .num 1
      ∧ (⟨OpenAIGuard.mapType "email", .str "a", .num 1, .num 7, (0.90 : ℚ)⟩ : PIIMatch).«end»
          = .num 7)
    ∧ (openaiItem "ab" (.obj [("type", .str "email"), ("value", .str "a")])
        = .ok (some ⟨OpenAIGuard.mapType "email", .str "a",
                     .num (pyFind "ab" "a"),
                     .num (pyFind "ab" "a" + (("a" : String).length : Int)), (0.90 : ℚ)⟩)
      ∧ ∃ v : String,
          (⟨OpenAIGuard.mapType "email", .str "a", .num (pyFind "ab" "a"),
            .num (pyFind "ab" "a" + (("a" : String).length : Int)), (0.90 : ℚ)⟩ : PIIMatch).value
            = .str v
          ∧ (⟨OpenAIGuard.mapType "email", .str "a", .num (pyFind "ab" "a"),
              .num (pyFind "ab" "a" + (("a" : String).length : Int)), (0.90 : ℚ)⟩ : PIIMatch).start
              = .num (pyFind "ab" v)
          ∧ (⟨OpenAIGuard.mapType "email", .str "a", .num (pyFind "ab" "a"),
              .num (pyFind "ab" "a" + (("a" : String).length : Int)), (0.90 : ℚ)⟩ : PIIMatch).«end»
              = .num (pyFind "ab" v + (v.length : Int))) :=
  ⟨⟨rfl, openai_payload_selection_and_offsets.1 "m" "ab" [("pii", Json.arr [])] [] rfl⟩,
   ⟨rfl, openai_payload_selection_and_offsets.2.2.2.1 "ab"
      [("type", .str "email"), ("value", .str "a"), ("start", .num 1), ("end", .num 7)]
      (.num 1) (.num 7) _ rfl rfl rfl⟩,
   ⟨rfl, openai_payload_selection_and_offsets.2.2.2.2 "ab"
      [("type", .str "email"), ("value", .str "a")] _ rfl rfl rfl⟩⟩

/-- The projection of a payload item that `LlamaGuard._parse_response`'s loop
actually reads: whether it is a dict, and its `type` and `value` fields.  The
`start`/`end` fields are not part of this view. -/
def llamaItemView : Json → Option (Json × Json)
  | .obj fields => some (objGet fields "type" (.str ""), objGet fields "value" (.str ""))
  | _ => none

theorem llamaItem_congr (text : String) (i1 i2 : Json)
    (h : llamaItemView i1 = llamaItemView i2) : llamaItem text i1 = llamaItem text i2 := by
  cases i1 <;> cases i2 <;> simp_all [llamaItemView, llamaItem]

theorem llamaItems_congr (text : String) :
    ∀ (l1 l2 : List Json), l1.map llamaItemView = l2.map llamaItemView →
      llamaItems text l1 = llamaItems text l2 := by
  intro l1
  induction l1 with
  | nil =>
    intro l2 h
    cases l2 with
    | nil => rfl
    | cons b bs => simp at h
  | cons a as ih =>
    intro l2 h
    cases l2 with
    | nil => simp at h
    | cons b bs =>
      simp only [List.map_cons, List.cons.injEq] at h
      simp only [llamaItems]
      rw [llamaItem_congr text a b h.1, ih bs h.2]

theorem llamaItem_confidence (text : String) (item : Json) (m : PIIMatch)
    (h : llamaItem text item = .ok (some m)) : m.confidence = 0.85 := by
  cases item with
  | obj fields =>
    simp only [llamaItem] at h
    split at h
    · split at h
      · split at h
        · injection h with h
          injection h with h
          subst h
          rfl
        · injection h with h
          cases h
      · cases h
    · cases h
  | null => exact Except.noConfusion h
  | bool b => exact Except.noConfusion h
  | num n => exact Except.noConfusion h
  | str s => exact Except.noConfusion h
  | arr items => exact Except.noConfusion h

theorem llamaItems_confidence (text : String) :
    ∀ (l : List Json) (ms : List PIIMatch), llamaItems text l = .ok ms →
      ∀ m ∈ ms, m.confidence = 0.85 := by
  intro l
  induction l with
  | nil =>
    intro ms h m hm
    injection h with h
    subst h
    cases hm
  | cons it rest ih =>
    intro ms h m hm
    simp only [llamaItems] at h
    split at h
    · cases h
    · rename_i m? hm?
      split at h
      · cases h
      · rename_i ms0 hms0
        injection h with h
        subst h
        cases m? with
        | some m0 =>
          rcases List.mem_cons.mp hm with h1 | h2
          · subst h1
            exact llamaItem_confidence text it m hm?
          · exact ih ms0 hms0 m h2
        | none => exact ih ms0 hms0 m hm

/-- C10 counterexample: two Llama payloads that differ only in one item's
`start` field produce different `GuardResult`s, because the result's
`raw_response` field echoes the payload; their match lists are nevertheless
identical. -/
theorem llama_detection_results_echo_payload :
    LlamaGuard.parseResponse "m" "abc"
        ⟨.ok (.arr [.obj [("type", .str "email"), ("value", .str "a"),
                          ("start", .num 1), ("end", .num 2)]])⟩
      ≠ LlamaGuard.parseResponse "m" "abc"
        ⟨.ok (.arr [.obj [("type", .str "email"), ("value", .str "a"),
                          ("start", .num 5), ("end", .num 2)]])⟩
    ∧ (LlamaGuard.parseResponse "m" "abc"
        ⟨.ok (.arr [.obj [("type", .str "email"), ("value", .str "a"),
                          ("start", .num 1), ("end", .num 2)]])⟩).map (fun r => r.matches)
      = (LlamaGuard.parseResponse "m" "abc"
        ⟨.ok (.arr [.obj [("type", .str "email"), ("value", .str "a"),
                          ("start", .num 5), ("end", .num 2)]])⟩).map (fun r => r.matches) := by
  constructor
  · intro h
    simp [LlamaGuard.parseResponse, pyIter, llamaItems, llamaItem, objGet, lookupField,
          show pyFind "abc" "a" = 0 from rfl] at h
  · rfl

/-- C10 amended: the `start`/`end` fields of Llama payload items never
influence the emitted match list or the model identifier — any two payloads
whose items agree on their `type` and `value` fields (in particular, payloads
identical except for `start`/`end` values) yield the same matches, each with
the recomputed first-occurrence span and the constant confidence `0.85`; only
the `raw_response` field, which echoes the payload verbatim, differs. -/
theorem llama_span_fields_noninterference (model text : String) (items1 items2 : List Json)
    (h : items1.map llamaItemView = items2.map llamaItemView) :
    ((LlamaGuard.parseResponse model text ⟨.ok (.arr items1)⟩).map
        (fun r => (r.matches, r.model_used))
      = (LlamaGuard.parseResponse model text ⟨.ok (.arr items2)⟩).map
        (fun r => (r.matches, r.model_used)))
    ∧ (∀ r, LlamaGuard.parseResponse model text ⟨.ok (.arr items1)⟩ = .ok r →
        ∀ m ∈ r.matches, m.confidence = 0.85) := by
  have he : llamaItems text items1 = llamaItems text items2 :=
    llamaItems_congr text items1 items2 h
  constructor
  · simp only [LlamaGuard.parseResponse, pyIter]
    rw [he]
    cases llamaItems text items2 <;> rfl
  · intro r hr m hm
    simp only [LlamaGuard.parseResponse, pyIter] at hr
    split at hr
    · cases hr
    · rename_i ms hms
      injection hr with hr
      subst hr
      exact llamaItems_confidence text items1 ms hms m hm

theorem llama_span_fields_noninterference_witness :
    ([Json.obj [("type", .str "email"), ("value", .str "a"),
                ("start", .num 1), ("end", .num 2)]].map llamaItemView
      = [Json.obj [("type", .str "email"), ("value", .str "a"),
                   ("start", .num 5), ("end", .num 2)]].map llamaItemView)
    ∧ ((LlamaGuard.parseResponse "m" "abc"
          ⟨.ok (.arr [.obj [("type", .str "email"), ("value", .str "a"),
                            ("start", .num 1), ("end", .num 2)]])⟩).map
          (fun r => (r.matches, r.model_used))
        = (LlamaGuard.parseResponse "m" "abc"
          ⟨.ok (.arr [.obj [("type", .str "email"), ("value", .str "a"),
                            ("start", .num 5), ("end", .num 2)]])⟩).map
          (fun r => (r.matches, r.model_used))) :=
  ⟨rfl,
   (llama_span_fields_noninterference "m" "abc"
      [Json.obj [("type", .str "email"), ("value", .str "a"),
                 ("start", .num 1), ("end", .num 2)]]
      [Json.obj [("type", .str "email"), ("value", .str "a"),
                 ("start", .num 5), ("end", .num 2)]] rfl).1⟩
